import Mathlib

/-!
Verification of the EMS MILP optimizer in `ai-service/api/router.py`
(VidyutAI Realtime Dashboard).

The model builder `run_optimization` is embedded shallowly: numeric
parameters become rationals, the per-time-step pulp decision variables
become functions `ℕ → ℚ` collected in a structure `Sol`, and the emitted
constraint set becomes the `Prop`-valued structure `Feasible` whose fields
mirror, one for one, the constraints added to the pulp model (variable
bounds included).  Pure helper code (`upsample_profile`, parameter
clamping, profile validation/selection, the weather shape table) is
embedded as executable Lean functions.
-/

namespace VidyutAI

/-! ### Fixed physical constants of the model (router.py lines 143-171) -/

def bess_min_soc : ℚ := 1/10
def bess_max_soc : ℚ := 9/10
def bess_charge_efficiency : ℚ := 95/100
def bess_discharge_efficiency : ℚ := 95/100
def fuel_slope : ℚ := 18/100
def fuel_intercept : ℚ := 48

def electrolyzer_capacity : ℚ := 1000
def fuel_cell_capacity : ℚ := 800
def h2_tank_capacity : ℚ := 100
def fuel_cell_efficiency_percent : ℚ := 60/100
def H2_LHV : ℚ := 333/10

def h2_min_soc : ℚ := 1/10
def h2_max_soc : ℚ := 9/10
def fuel_cell_efficiency_kwh_per_kg : ℚ := H2_LHV * fuel_cell_efficiency_percent
def fc_conversion_rate : ℚ := 1 / max (1/1000000000) fuel_cell_efficiency_kwh_per_kg

def P_break1_percent : ℚ := 20/100
def eff_at_break1 : ℚ := 80/100
def eff_at_break2 : ℚ := 75/100
def P_break1 : ℚ := electrolyzer_capacity * P_break1_percent
def P_break2 : ℚ := electrolyzer_capacity
def H2_at_break1 : ℚ := (P_break1 * eff_at_break1) / H2_LHV
def H2_at_break2 : ℚ := (P_break2 * eff_at_break2) / H2_LHV
def slope_s1 : ℚ := if 0 < P_break1 then H2_at_break1 / P_break1 else 0
def slope_s2 : ℚ :=
  if 0 < P_break2 - P_break1 then (H2_at_break2 - H2_at_break1) / (P_break2 - P_break1) else 0
def width_s1 : ℚ := P_break1
def width_s2 : ℚ := P_break2 - P_break1

/-! ### Per-run configuration after the parameter sanitisation of
router.py lines 84-98 (values already clamped / snapped). -/

structure Config where
  numDays : ℕ
  timeResolutionMinutes : ℚ
  gridConnection : ℚ
  solarConnection : ℚ
  batteryCapacityWh : ℚ
  batteryVoltage : ℚ
  dieselCapacity : ℚ

/-- `step_size = time_resolution_minutes / 60.0` (router.py line 123). -/
def step_size (c : Config) : ℚ := c.timeResolutionMinutes / 60

/-- `grid_max_power = grid_connection` (router.py line 136). -/
def grid_max_power (c : Config) : ℚ := c.gridConnection

/-- `solar_capacity = solar_connection` (router.py line 137). -/
def solar_capacity (c : Config) : ℚ := c.solarConnection

/-- `battery_storage_energy = battery_capacity_wh / 1000.0` (line 138). -/
def battery_storage_energy (c : Config) : ℚ := c.batteryCapacityWh / 1000

/-- `battery_power = battery_storage_energy * 0.5` (line 139). -/
def battery_power (c : Config) : ℚ := battery_storage_energy c * (5/10)

def bess_charge_capacity (c : Config) : ℚ := battery_power c
def bess_discharge_capacity (c : Config) : ℚ := battery_power c
def bess_energy_capacity (c : Config) : ℚ := battery_storage_energy c
def diesel_min_power (c : Config) : ℚ := (1/10) * c.dieselCapacity
def diesel_max_power (c : Config) : ℚ := c.dieselCapacity

/-- `initial_battery_level = 0.5 * bess_energy_capacity` (line 223). -/
def initial_battery_level (c : Config) : ℚ := (5/10) * bess_energy_capacity c

/-- `initial_h2_level = 0.5 * h2_tank_capacity` (line 250). -/
def initial_h2_level : ℚ := (5/10) * h2_tank_capacity

/-! ### Decision variables of the MILP (router.py lines 176-206), one
rational-valued time series per pulp variable family.  Binary pulp
variables are rationals constrained to {0,1} by `Feasible`. -/

structure Sol where
  P_grid : ℕ → ℚ
  P_load_curt : ℕ → ℚ
  P_diesel : ℕ → ℚ
  z_diesel : ℕ → ℚ
  F_diesel : ℕ → ℚ
  P_charge : ℕ → ℚ
  P_discharge : ℕ → ℚ
  E_battery : ℕ → ℚ
  z_bess : ℕ → ℚ
  P_pv_used : ℕ → ℚ
  P_solar_curt : ℕ → ℚ
  P_elec : ℕ → ℚ
  P_fc : ℕ → ℚ
  E_h2 : ℕ → ℚ
  z_h2 : ℕ → ℚ
  P_elec_s1 : ℕ → ℚ
  P_elec_s2 : ℕ → ℚ
  z_elec_s2 : ℕ → ℚ
  H_produced : ℕ → ℚ

/-- A feasible point of the MILP built by `run_optimization`: the variable
bounds of lines 176-206 together with every constraint added in lines
208-273.  `load` and `solar` are the resampled per-step series; `T` is the
time horizon (`time_horizon`, at least 1 since `num_days ≥ 1`). -/
structure Feasible (c : Config) (load solar : ℕ → ℚ) (T : ℕ) (s : Sol) : Prop where
  horizon_pos : 1 ≤ T
  -- variable bounds (lines 176-206)
  grid_bounds : ∀ t, t < T → -grid_max_power c ≤ s.P_grid t ∧ s.P_grid t ≤ grid_max_power c
  load_curt_nonneg : ∀ t, t < T → 0 ≤ s.P_load_curt t
  diesel_bounds : ∀ t, t < T → 0 ≤ s.P_diesel t ∧ s.P_diesel t ≤ diesel_max_power c
  z_diesel_bin : ∀ t, t < T → s.z_diesel t = 0 ∨ s.z_diesel t = 1
  fuel_nonneg : ∀ t, t < T → 0 ≤ s.F_diesel t
  charge_bounds : ∀ t, t < T → 0 ≤ s.P_charge t ∧ s.P_charge t ≤ bess_charge_capacity c
  discharge_bounds : ∀ t, t < T → 0 ≤ s.P_discharge t ∧ s.P_discharge t ≤ bess_discharge_capacity c
  battery_bounds : ∀ t, t < T →
    bess_min_soc * bess_energy_capacity c ≤ s.E_battery t ∧
    s.E_battery t ≤ bess_max_soc * bess_energy_capacity c
  z_bess_bin : ∀ t, t < T → s.z_bess t = 0 ∨ s.z_bess t = 1
  pv_used_nonneg : ∀ t, t < T → 0 ≤ s.P_pv_used t
  solar_curt_nonneg : ∀ t, t < T → 0 ≤ s.P_solar_curt t
  elec_bounds : ∀ t, t < T → 0 ≤ s.P_elec t ∧ s.P_elec t ≤ electrolyzer_capacity
  fc_bounds : ∀ t, t < T → 0 ≤ s.P_fc t ∧ s.P_fc t ≤ fuel_cell_capacity
  h2_bounds : ∀ t, t < T →
    h2_min_soc * h2_tank_capacity ≤ s.E_h2 t ∧ s.E_h2 t ≤ h2_max_soc * h2_tank_capacity
  z_h2_bin : ∀ t, t < T → s.z_h2 t = 0 ∨ s.z_h2 t = 1
  elec_s1_bounds : ∀ t, t < T → 0 ≤ s.P_elec_s1 t ∧ s.P_elec_s1 t ≤ width_s1
  elec_s2_bounds : ∀ t, t < T → 0 ≤ s.P_elec_s2 t ∧ s.P_elec_s2 t ≤ width_s2
  z_elec_s2_bin : ∀ t, t < T → s.z_elec_s2 t = 0 ∨ s.z_elec_s2 t = 1
  h_produced_nonneg : ∀ t, t < T → 0 ≤ s.H_produced t
  -- power balance (lines 208-212)
  power_balance : ∀ t, t < T →
    s.P_pv_used t + s.P_diesel t + s.P_discharge t + s.P_grid t + s.P_fc t
      = (load t - s.P_load_curt t) + s.P_charge t + s.P_elec t
  -- pv balance (lines 214-216)
  pv_balance : ∀ t, t < T → s.P_pv_used t + s.P_solar_curt t = solar t * solar_capacity c
  -- diesel generator constraints (lines 218-221)
  diesel_min : ∀ t, t < T → diesel_min_power c * s.z_diesel t ≤ s.P_diesel t
  diesel_max : ∀ t, t < T → s.P_diesel t ≤ diesel_max_power c * s.z_diesel t
  fuel_cons : ∀ t, t < T →
    fuel_slope * s.P_diesel t + fuel_intercept * s.z_diesel t ≤ s.F_diesel t
  -- initial battery level (lines 223-224)
  battery_init : s.E_battery 0 = initial_battery_level c
  -- battery dynamics (lines 226-236)
  battery_dynamics : ∀ t, t + 1 < T →
    s.E_battery (t + 1)
      = s.E_battery t
        + step_size c
          * (s.P_charge t * bess_charge_efficiency
             - s.P_discharge t * (1 / bess_discharge_efficiency))
  -- charge / discharge mutual exclusion (lines 237-238)
  charge_limit : ∀ t, t < T → s.P_charge t ≤ bess_charge_capacity c * (1 - s.z_bess t)
  discharge_limit : ∀ t, t < T → s.P_discharge t ≤ bess_discharge_capacity c * s.z_bess t
  -- battery cyclic SOC (lines 240-248)
  battery_cyclic_soc :
    initial_battery_level c
      = s.E_battery (T - 1)
        + step_size c
          * (s.P_charge (T - 1) * bess_charge_efficiency
             - s.P_discharge (T - 1) * (1 / bess_discharge_efficiency))
  -- initial hydrogen level (lines 250-251)
  h2_init : s.E_h2 0 = initial_h2_level
  -- electrolyzer piecewise linearisation and hydrogen system (lines 253-259)
  elec_sum : ∀ t, t < T → s.P_elec t = s.P_elec_s1 t + s.P_elec_s2 t
  h2_prod : ∀ t, t < T →
    s.H_produced t = s.P_elec_s1 t * slope_s1 + s.P_elec_s2 t * slope_s2
  elec_s1_before_s2 : ∀ t, t < T → width_s1 * s.z_elec_s2 t ≤ s.P_elec_s1 t
  elec_s2_activation : ∀ t, t < T → s.P_elec_s2 t ≤ width_s2 * s.z_elec_s2 t
  fc_limit : ∀ t, t < T → s.P_fc t ≤ fuel_cell_capacity * s.z_h2 t
  elec_limit : ∀ t, t < T → s.P_elec t ≤ electrolyzer_capacity * (1 - s.z_h2 t)
  -- hydrogen dynamics (lines 260-266)
  h2_dyn : ∀ t, t + 1 < T →
    s.E_h2 (t + 1)
      = s.E_h2 t + s.H_produced t * step_size c
        - s.P_fc t * step_size c * fc_conversion_rate
  -- hydrogen cyclic constraint (lines 268-273)
  h2_cyclic :
    s.E_h2 0
      = s.E_h2 (T - 1) + s.H_produced (T - 1) * step_size c
        - s.P_fc (T - 1) * step_size c * fc_conversion_rate

/-! ### Parameter sanitisation (router.py lines 84-87) -/

/-- `num_days = max(1, min(30, int(params["num_days"])))` (line 84). -/
def clamp_num_days (n : ℤ) : ℤ := max 1 (min 30 n)

/-- `if time_resolution_minutes not in [15, 30, 60]: time_resolution_minutes = 30`
(lines 86-87). -/
def snap_resolution (r : ℤ) : ℤ :=
  if r = 15 ∨ r = 30 ∨ r = 60 then r else 30

/-- Spec-side reading of "snapped to the nearest supported value": `v` is a
supported resolution at minimal absolute distance from the request `r`.
This definition follows the spec's words, for comparison with
`snap_resolution`, which follows the code. -/
def is_nearest_supported (r v : ℤ) : Prop :=
  (v = 15 ∨ v = 30 ∨ v = 60) ∧ ∀ w : ℤ, (w = 15 ∨ w = 30 ∨ w = 60) → |r - v| ≤ |r - w|

/-- The caller-controlled inputs that the modelled pipeline depends on. -/
structure Params where
  numDays : ℤ
  timeResolutionMinutes : ℤ
  weather : String

def effective_num_days (p : Params) : ℤ := clamp_num_days p.numDays

def effective_resolution (p : Params) : ℤ := snap_resolution p.timeResolutionMinutes

/-- `steps_per_hour = int(60 / time_resolution_minutes)` (line 124). -/
def steps_per_hour (p : Params) : ℕ := (60 / effective_resolution p).toNat

/-- `time_horizon = num_days * 24 * steps_per_hour` (line 125). -/
def time_horizon (p : Params) : ℕ :=
  (effective_num_days p).toNat * 24 * steps_per_hour p

/-! ### Profile resampling (router.py lines 68-76)

`upsample_profile` calls `np.linspace(0, n-1, n*k)` for the fine time axis
and `np.interp` for piecewise-linear interpolation, then tiles the single
interpolated day `num_days` times.  `interpAt` embeds `np.interp` on the
node axis `0, 1, ..., n-1` (numpy clamps at both ends); `fine_time` embeds
the `i`-th `linspace` sample. -/

def interpAt (p : List ℚ) (x : ℚ) : ℚ :=
  if x ≤ 0 then p.headD 0
  else if (p.length : ℚ) - 1 ≤ x then p.getLastD 0
  else
    p.getD (⌊x⌋).toNat 0
      + (x - ((⌊x⌋).toNat : ℚ)) * (p.getD ((⌊x⌋).toNat + 1) 0 - p.getD (⌊x⌋).toNat 0)

def fine_time (n m i : ℕ) : ℚ :=
  if m ≤ 1 then 0 else (i : ℚ) * ((n : ℚ) - 1) / ((m : ℚ) - 1)

def upsample_single_day (p : List ℚ) (k : ℕ) : List ℚ :=
  (List.range (p.length * k)).map (fun i => interpAt p (fine_time p.length (p.length * k) i))

def upsample_profile (p : List ℚ) (k d : ℕ) : List ℚ :=
  (List.replicate d (upsample_single_day p k)).flatten

/-! ### Weather solar shapes (router.py lines 107-121); `weather` is the
already-lowercased string of line 98. -/

def sunny_solar_profile : List ℚ :=
  [0, 0, 0, 0, 0, 0, 5/100, 2/10, 4/10, 6/10, 8/10, 9/10,
   1, 95/100, 85/100, 7/10, 5/10, 25/100, 5/100, 0, 0, 0, 0, 0]

def rainy_solar_profile : List ℚ :=
  [0, 0, 0, 0, 0, 0, 1/100, 5/100, 1/10, 15/100, 2/10, 25/100,
   3/10, 25/100, 2/10, 15/100, 1/10, 5/100, 1/100, 0, 0, 0, 0, 0]

def solar_profile_base (weather : String) : List ℚ :=
  if weather = "sunny" then sunny_solar_profile
  else if weather = "rainy" then rainy_solar_profile
  else sunny_solar_profile

/-! ### Profile validation and selection (router.py lines 100-103, 128-134) -/

def load_profile_error_msg : String := "Load profile must contain at least 24 data points"

def price_profile_error_msg : String := "Price profile must contain at least 24 data points"

/-- Lines 128-134: the raw profiles are used as-is when the *load* profile
already has `expected_steps` entries, and are both upsampled otherwise. -/
def select_profiles (load price : List ℚ) (expected k d : ℕ) : List ℚ × List ℚ :=
  if load.length = expected then (load, price)
  else (upsample_profile load k d, upsample_profile price k d)

/-- The data that fully determines the MILP that `run_optimization` hands to
the solver (the per-step series, horizon and step width). -/
structure ModelData where
  T : ℕ
  step : ℚ
  load : List ℚ
  price : List ℚ
  solar : List ℚ

def build_model_data (p : Params) (load price : List ℚ) : ModelData :=
  let k := steps_per_hour p
  let d := (effective_num_days p).toNat
  let expected := d * 24 * k
  let lp := select_profiles load price expected k d
  { T := expected
    step := (effective_resolution p : ℚ) / 60
    load := lp.1
    price := lp.2
    solar := upsample_profile (solar_profile_base p.weather.toLower) k d }

/-- The pre-solve phase of `run_optimization`: the profile validation of
lines 100-103 runs first and raises `ValueError` (embedded as
`Except.error`) before any model data — and hence any pulp variable or
constraint — is created; only on success is the model built. -/
def run_optimization_model (p : Params) (load price : List ℚ) : Except String ModelData :=
  if load.length < 24 then .error load_profile_error_msg
  else if price.length < 24 then .error price_profile_error_msg
  else .ok (build_model_data p load price)

/-! ### Outcome classification of the `/v1/optimize` endpoint
(router.py lines 288-295 and 699-715). -/

/-- Outcome of the external MILP solver call. -/
inductive SolveOutcome where
  | solved (s : Sol)
  | infeasible
  | solverError (msg : String)

/-- The observable classification of a JSONResponse: HTTP status code and
the `"status"` field of the body. -/
structure ApiResponse where
  statusCode : ℕ
  status : String
deriving DecidableEq

/-- Response classification of `optimize_sources`.  `run_optimization`
never inspects the solver status after `model.solve(solver)` (line 295),
and an infeasible CBC solve does not raise: CBC exits 0 and still writes a
solution file, and pulp's solution reader first fills a default value of 0
for every variable (stripping the `**` prefix CBC puts on
infeasible-solution lines) before assigning `varValue`s, so every
`value(...)` call in lines 299-361 returns a number and the run completes
normally — an infeasible model therefore produces the same 200/"success"
response (lines 703-709) as a solved one, just with a meaningless summary.
The `ValueError` raised by profile validation is mapped to 400/"error" at
lines 710-712, and only a solver-raised exception reaches the catch-all of
lines 713-715 yielding 500/"error". -/
def optimize_sources_response (load price : List ℚ) (outcome : SolveOutcome) : ApiResponse :=
  if load.length < 24 then ⟨400, "error"⟩
  else if price.length < 24 then ⟨400, "error"⟩
  else
    match outcome with
    | .solved _ => ⟨200, "success"⟩
    | .infeasible => ⟨200, "success"⟩
    | .solverError _ => ⟨500, "error"⟩

/-! ### A concrete feasible point (zero dispatch, storage parked at 50%)
used to witness the invariant theorems. -/

def cfg0 : Config :=
  { numDays := 1, timeResolutionMinutes := 60, gridConnection := 100,
    solarConnection := 0, batteryCapacityWh := 1000, batteryVoltage := 12,
    dieselCapacity := 0 }

def load0 : ℕ → ℚ := fun _ => 0

def solar0 : ℕ → ℚ := fun _ => 0

def zeroSol : Sol :=
  { P_grid := fun _ => 0, P_load_curt := fun _ => 0, P_diesel := fun _ => 0,
    z_diesel := fun _ => 0, F_diesel := fun _ => 0, P_charge := fun _ => 0,
    P_discharge := fun _ => 0, E_battery := fun _ => 1/2, z_bess := fun _ => 0,
    P_pv_used := fun _ => 0, P_solar_curt := fun _ => 0, P_elec := fun _ => 0,
    P_fc := fun _ => 0, E_h2 := fun _ => 50, z_h2 := fun _ => 0,
    P_elec_s1 := fun _ => 0, P_elec_s2 := fun _ => 0, z_elec_s2 := fun _ => 0,
    H_produced := fun _ => 0 }

theorem feasible_zeroSol : Feasible cfg0 load0 solar0 24 zeroSol := by
  constructor <;> intros <;>
    norm_num [zeroSol, cfg0, load0, solar0, step_size, grid_max_power, solar_capacity,
      battery_storage_energy, battery_power, bess_charge_capacity, bess_discharge_capacity,
      bess_energy_capacity, diesel_min_power, diesel_max_power, initial_battery_level,
      initial_h2_level, bess_min_soc, bess_max_soc, bess_charge_efficiency,
      bess_discharge_efficiency, fuel_slope, fuel_intercept, electrolyzer_capacity,
      fuel_cell_capacity, h2_tank_capacity, h2_min_soc, h2_max_soc,
      width_s1, width_s2, P_break1, P_break2, P_break1_percent]

/-! ### Helper lemmas about the resampler -/

theorem length_upsample_single_day (p : List ℚ) (k : ℕ) :
    (upsample_single_day p k).length = p.length * k := by
  simp [upsample_single_day]

theorem length_upsample_profile (p : List ℚ) (k d : ℕ) :
    (upsample_profile p k d).length = p.length * k * d := by
  simp [upsample_profile, List.length_flatten, List.map_replicate, List.sum_replicate,
    length_upsample_single_day, smul_eq_mul, Nat.mul_comm]

theorem getD_flatten_replicate (d : ℕ) (l : List ℚ) (j i : ℕ) (hj : j < d)
    (hi : i < l.length) :
    ((List.replicate d l).flatten).getD (j * l.length + i) 0 = l.getD i 0 := by
  induction d generalizing j with
  | zero => omega
  | succ d ih =>
    rw [List.replicate_succ, List.flatten_cons]
    cases j with
    | zero =>
      simpa using List.getD_append l (List.replicate d l).flatten 0 i hi
    | succ j =>
      have hidx : (j + 1) * l.length + i = l.length + (j * l.length + i) := by ring
      rw [hidx, List.getD_append_right l _ 0 _ (by omega)]
      simpa using ih j (by omega)

theorem getD_upsample_single_day (p : List ℚ) (k i : ℕ) (hi : i < p.length * k) :
    (upsample_single_day p k).getD i 0
      = interpAt p (fine_time p.length (p.length * k) i) := by
  unfold upsample_single_day
  rw [List.getD_eq_getElem _ _ (by simpa using hi)]
  simp

theorem fine_time_zero (n m : ℕ) : fine_time n m 0 = 0 := by
  unfold fine_time
  split <;> simp

theorem fine_time_last (n m : ℕ) (h : 2 ≤ m) : fine_time n m (m - 1) = (n : ℚ) - 1 := by
  unfold fine_time
  rw [if_neg (by omega)]
  have hm : ((m - 1 : ℕ) : ℚ) = (m : ℚ) - 1 := by
    push_cast [Nat.cast_sub (by omega : 1 ≤ m)]
    ring
  have hne : (m : ℚ) - 1 ≠ 0 := by
    have : (2 : ℚ) ≤ (m : ℚ) := by exact_mod_cast h
    linarith
  rw [hm, mul_comm, mul_div_assoc, div_self hne, mul_one]

theorem interpAt_zero (p : List ℚ) : interpAt p 0 = p.getD 0 0 := by
  unfold interpAt
  rw [if_pos le_rfl]
  cases p <;> simp

theorem interpAt_last (p : List ℚ) (hn : 1 ≤ p.length) :
    interpAt p ((p.length : ℚ) - 1) = p.getLastD 0 := by
  unfold interpAt
  by_cases h1 : (p.length : ℚ) - 1 ≤ 0
  · have hlen : p.length = 1 := by
      have hq : (1 : ℚ) ≤ (p.length : ℚ) := by exact_mod_cast hn
      have : (p.length : ℚ) = 1 := by linarith
      exact_mod_cast this
    obtain ⟨a, rfl⟩ := List.length_eq_one.mp hlen
    rw [if_pos h1]
    simp
  · rw [if_neg h1, if_pos le_rfl]

theorem getD_last_upsample_single_day (p : List ℚ) (k : ℕ)
    (hn : 1 ≤ p.length) (hk : 1 ≤ k) :
    (upsample_single_day p k).getD (p.length * k - 1) 0 = p.getLastD 0 := by
  have hm : 1 ≤ p.length * k := Nat.mul_le_mul hn hk
  rw [getD_upsample_single_day p k _ (by omega)]
  by_cases h2 : 2 ≤ p.length * k
  · rw [fine_time_last _ _ h2]
    exact interpAt_last p hn
  · have hm1 : p.length * k = 1 := by omega
    have hn1 : p.length = 1 := by
      by_contra hne
      have hge : 2 ≤ p.length := by omega
      have := Nat.mul_le_mul hge hk
      omega
    rw [hm1]
    have : fine_time p.length 1 (1 - 1) = 0 := fine_time_zero _ _
    rw [this, interpAt_zero]
    obtain ⟨a, rfl⟩ := List.length_eq_one.mp hn1
    simp

theorem interpAt_bounds (p : List ℚ) (hp : p ≠ []) (lo hi : ℚ)
    (hb : ∀ y ∈ p, lo ≤ y ∧ y ≤ hi) (x : ℚ) :
    lo ≤ interpAt p x ∧ interpAt p x ≤ hi := by
  unfold interpAt
  split_ifs with h1 h2
  · refine hb _ ?_
    cases p with
    | nil => exact absurd rfl hp
    | cons a l => simp
  · refine hb _ ?_
    rw [List.getLastD_eq_getLast?, List.getLast?_eq_getLast p hp]
    exact List.getLast_mem hp
  · push_neg at h1 h2
    have hfl0 : (0 : ℤ) ≤ ⌊x⌋ := Int.floor_nonneg.mpr (le_of_lt h1)
    have hjz : (((⌊x⌋).toNat : ℤ)) = ⌊x⌋ := Int.toNat_of_nonneg hfl0
    have hjq : (((⌊x⌋).toNat : ℚ)) ≤ x := by
      have h := Int.floor_le x
      rw [← hjz] at h
      exact_mod_cast h
    have hxj1 : x < (((⌊x⌋).toNat : ℚ)) + 1 := by
      have h := Int.lt_floor_add_one x
      rw [← hjz] at h
      exact_mod_cast h
    have hjlt : (⌊x⌋).toNat + 1 < p.length := by
      have hq : ((⌊x⌋ : ℚ)) < (p.length : ℚ) - 1 := lt_of_le_of_lt (Int.floor_le x) h2
      have hz : ⌊x⌋ < (p.length : ℤ) - 1 := by exact_mod_cast hq
      omega
    have hmem1 : p.getD (⌊x⌋).toNat 0 ∈ p := by
      rw [List.getD_eq_getElem p 0 (show (⌊x⌋).toNat < p.length by omega)]
      exact List.getElem_mem _
    have hmem2 : p.getD ((⌊x⌋).toNat + 1) 0 ∈ p := by
      rw [List.getD_eq_getElem p 0 hjlt]
      exact List.getElem_mem _
    obtain ⟨ha1, ha2⟩ := hb _ hmem1
    obtain ⟨hb1, hb2⟩ := hb _ hmem2
    have ht0 : 0 ≤ x - (((⌊x⌋).toNat : ℚ)) := sub_nonneg.mpr hjq
    have ht1 : x - (((⌊x⌋).toNat : ℚ)) ≤ 1 := by linarith
    constructor
    · nlinarith [mul_nonneg (by linarith : (0 : ℚ) ≤ 1 - (x - (((⌊x⌋).toNat : ℚ))))
        (by linarith : (0 : ℚ) ≤ p.getD (⌊x⌋).toNat 0 - lo),
        mul_nonneg ht0 (by linarith : (0 : ℚ) ≤ p.getD ((⌊x⌋).toNat + 1) 0 - lo)]
    · nlinarith [mul_nonneg (by linarith : (0 : ℚ) ≤ 1 - (x - (((⌊x⌋).toNat : ℚ))))
        (by linarith : (0 : ℚ) ≤ hi - p.getD (⌊x⌋).toNat 0),
        mul_nonneg ht0 (by linarith : (0 : ℚ) ≤ hi - p.getD ((⌊x⌋).toNat + 1) 0)]

theorem mem_upsample_profile_interpAt (p : List ℚ) (k d : ℕ) (v : ℚ)
    (hv : v ∈ upsample_profile p k d) : ∃ x, v = interpAt p x := by
  unfold upsample_profile at hv
  rw [List.mem_flatten] at hv
  obtain ⟨l, hl, hvl⟩ := hv
  rw [List.mem_replicate] at hl
  rw [hl.2] at hvl
  unfold upsample_single_day at hvl
  rw [List.mem_map] at hvl
  obtain ⟨i, -, hi⟩ := hvl
  exact ⟨_, hi.symm⟩

/-! ### Claim theorems -/

/-- C1: in every feasible solution of the model built by `run_optimization`
and at every time step `t < T`, the supplied power
`P_pv_used[t] + P_diesel[t] + P_discharge[t] + P_grid[t] + P_fc[t]` equals
the demanded power `(load_profile[t] - P_load_curt[t]) + P_charge[t] + P_elec[t]`. -/
theorem C1_power_balance (c : Config) (load solar : ℕ → ℚ) (T : ℕ) (s : Sol)
    (h : Feasible c load solar T s) (t : ℕ) (ht : t < T) :
    s.P_pv_used t + s.P_diesel t + s.P_discharge t + s.P_grid t + s.P_fc t
      = (load t - s.P_load_curt t) + s.P_charge t + s.P_elec t :=
  h.power_balance t ht

/-- Witness for C1 at the concrete feasible point `zeroSol` of the model for
`cfg0`, zero load and zero solar, at `t = 0`. -/
theorem C1_power_balance_witness :
    zeroSol.P_pv_used 0 + zeroSol.P_diesel 0 + zeroSol.P_discharge 0
        + zeroSol.P_grid 0 + zeroSol.P_fc 0
      = (load0 0 - zeroSol.P_load_curt 0) + zeroSol.P_charge 0 + zeroSol.P_elec 0 :=
  C1_power_balance cfg0 load0 solar0 24 zeroSol feasible_zeroSol 0 (by norm_num)

/-- C2: in every feasible solution, the battery energy computed after the
final step, `E_battery[T-1] + step_size*(P_charge[T-1]*0.95 - P_discharge[T-1]/0.95)`,
equals the initial battery energy `E_battery[0]`, and the hydrogen level
computed after the final step,
`E_h2[T-1] + H_produced[T-1]*step_size - P_fc[T-1]*step_size*fc_conversion_rate`,
equals `E_h2[0]` (cyclic closure). -/
theorem C2_cyclic_closure (c : Config) (load solar : ℕ → ℚ) (T : ℕ) (s : Sol)
    (h : Feasible c load solar T s) :
    s.E_battery (T - 1)
        + step_size c
          * (s.P_charge (T - 1) * bess_charge_efficiency
             - s.P_discharge (T - 1) * (1 / bess_discharge_efficiency))
      = s.E_battery 0
    ∧ s.E_h2 (T - 1) + s.H_produced (T - 1) * step_size c
        - s.P_fc (T - 1) * step_size c * fc_conversion_rate
      = s.E_h2 0 := by
  refine ⟨?_, h.h2_cyclic.symm⟩
  rw [h.battery_init]
  exact h.battery_cyclic_soc.symm

/-- Witness for C2 at the concrete feasible point `zeroSol`. -/
theorem C2_cyclic_closure_witness :
    zeroSol.E_battery (24 - 1)
        + step_size cfg0
          * (zeroSol.P_charge (24 - 1) * bess_charge_efficiency
             - zeroSol.P_discharge (24 - 1) * (1 / bess_discharge_efficiency))
      = zeroSol.E_battery 0
    ∧ zeroSol.E_h2 (24 - 1) + zeroSol.H_produced (24 - 1) * step_size cfg0
        - zeroSol.P_fc (24 - 1) * step_size cfg0 * fc_conversion_rate
      = zeroSol.E_h2 0 :=
  C2_cyclic_closure cfg0 load0 solar0 24 zeroSol feasible_zeroSol

/-- C8: in every feasible solution and at every step, the electrolyzer power
splits as `P_elec = P_elec_s1 + P_elec_s2` with `P_elec_s1` bounded by the
segment-1 width (20% of electrolyzer capacity); whenever `P_elec_s2` is
nonzero, `P_elec_s1` equals the full segment-1 width; hydrogen production is
`P_elec_s1*slope_s1 + P_elec_s2*slope_s2`; and `slope_s2` (from the 75%
efficiency at full capacity) is strictly smaller than `slope_s1` (from the
80% efficiency at the 20% breakpoint). -/
theorem C8_piecewise_electrolyzer (c : Config) (load solar : ℕ → ℚ) (T : ℕ) (s : Sol)
    (h : Feasible c load solar T s) (t : ℕ) (ht : t < T) :
    s.P_elec t = s.P_elec_s1 t + s.P_elec_s2 t
    ∧ s.P_elec_s1 t ≤ width_s1
    ∧ width_s1 = electrolyzer_capacity * P_break1_percent
    ∧ (0 < s.P_elec_s2 t → s.P_elec_s1 t = width_s1)
    ∧ s.H_produced t = s.P_elec_s1 t * slope_s1 + s.P_elec_s2 t * slope_s2
    ∧ slope_s2 < slope_s1 := by
  refine ⟨h.elec_sum t ht, (h.elec_s1_bounds t ht).2, rfl, ?_, h.h2_prod t ht, ?_⟩
  · intro hpos
    rcases h.z_elec_s2_bin t ht with hz | hz
    · exfalso
      have hup := h.elec_s2_activation t ht
      rw [hz, mul_zero] at hup
      exact absurd (lt_of_lt_of_le hpos hup) (lt_irrefl 0)
    · have hlow := h.elec_s1_before_s2 t ht
      rw [hz, mul_one] at hlow
      exact le_antisymm (h.elec_s1_bounds t ht).2 hlow
  · norm_num [slope_s1, slope_s2, P_break1, P_break2, P_break1_percent,
      H2_at_break1, H2_at_break2, eff_at_break1, eff_at_break2, H2_LHV,
      electrolyzer_capacity]

/-- Witness for C8 at the concrete feasible point `zeroSol`, at `t = 0`. -/
theorem C8_piecewise_electrolyzer_witness :
    zeroSol.P_elec 0 = zeroSol.P_elec_s1 0 + zeroSol.P_elec_s2 0
    ∧ zeroSol.P_elec_s1 0 ≤ width_s1
    ∧ width_s1 = electrolyzer_capacity * P_break1_percent
    ∧ (0 < zeroSol.P_elec_s2 0 → zeroSol.P_elec_s1 0 = width_s1)
    ∧ zeroSol.H_produced 0 = zeroSol.P_elec_s1 0 * slope_s1 + zeroSol.P_elec_s2 0 * slope_s2
    ∧ slope_s2 < slope_s1 :=
  C8_piecewise_electrolyzer cfg0 load0 solar0 24 zeroSol feasible_zeroSol 0 (by norm_num)

/-- C10: every model built by `run_optimization` fixes the initial storage
levels to exactly 50% of capacity: `E_battery[0]` equals `0.5` times the
battery energy capacity and `E_h2[0]` equals `0.5` times the hydrogen tank
capacity. -/
theorem C10_initial_levels (c : Config) (load solar : ℕ → ℚ) (T : ℕ) (s : Sol)
    (h : Feasible c load solar T s) :
    s.E_battery 0 = (5/10) * bess_energy_capacity c
    ∧ s.E_h2 0 = (5/10) * h2_tank_capacity :=
  ⟨h.battery_init, h.h2_init⟩

/-- Witness for C10 at the concrete feasible point `zeroSol`. -/
theorem C10_initial_levels_witness :
    zeroSol.E_battery 0 = (5/10) * bess_energy_capacity cfg0
    ∧ zeroSol.E_h2 0 = (5/10) * h2_tank_capacity :=
  C10_initial_levels cfg0 load0 solar0 24 zeroSol feasible_zeroSol

/-- C3: `run_optimization` fails validation with a message identifying the
offending profile whenever the raw load or price profile has fewer than 24
samples; the failure short-circuits the pipeline before any model data is
built (the `Except.error` result carries no `ModelData`), and when both raw
profiles have at least 24 samples no validation failure is raised. -/
theorem C3_profile_validation (p : Params) (load price : List ℚ) :
    (load.length < 24 →
      run_optimization_model p load price = .error load_profile_error_msg)
    ∧ (24 ≤ load.length → price.length < 24 →
      run_optimization_model p load price = .error price_profile_error_msg)
    ∧ (24 ≤ load.length → 24 ≤ price.length →
      run_optimization_model p load price = .ok (build_model_data p load price)) := by
  refine ⟨fun h => ?_, fun h1 h2 => ?_, fun h1 h2 => ?_⟩
  · simp [run_optimization_model, h]
  · simp [run_optimization_model, Nat.not_lt.mpr h1, h2]
  · simp [run_optimization_model, Nat.not_lt.mpr h1, Nat.not_lt.mpr h2]

/-- Witness for C3: a 10-sample load profile fails with the load message, a
10-sample price profile fails with the price message, and two 24-sample
profiles build the model. -/
theorem C3_profile_validation_witness :
    run_optimization_model ⟨2, 30, "sunny"⟩ (List.replicate 10 (1 : ℚ)) (List.replicate 24 (1 : ℚ))
      = .error load_profile_error_msg
    ∧ run_optimization_model ⟨2, 30, "sunny"⟩ (List.replicate 24 (1 : ℚ)) (List.replicate 10 (1 : ℚ))
      = .error price_profile_error_msg
    ∧ run_optimization_model ⟨2, 30, "sunny"⟩ (List.replicate 24 (1 : ℚ)) (List.replicate 24 (1 : ℚ))
      = .ok (build_model_data ⟨2, 30, "sunny"⟩ (List.replicate 24 (1 : ℚ)) (List.replicate 24 (1 : ℚ))) :=
  ⟨(C3_profile_validation _ _ _).1 (by simp),
   (C3_profile_validation _ _ _).2.1 (by simp) (by simp),
   (C3_profile_validation _ _ _).2.2 (by simp) (by simp)⟩

/-- C4 counterexample: for the configuration `resolution_minutes = 50`
(outside `{15, 30, 60}`) the code yields 30 — both through the raw snap of
lines 86-87 and through the `Params`-level pipeline — yet the unique
nearest supported value to 50 is 60 (distance 10, versus 20 to 30 and 35
to 15), so 30 is *not* a nearest supported value and the claim's universal
statement "any `resolution_minutes` outside `{15,30,60}` is snapped to the
nearest supported value" is false at this input: the code's snapping is a
fixed fallback to 30. -/
theorem C4_counterexample :
    snap_resolution 50 = 30
    ∧ effective_resolution ⟨2, 50, "sunny"⟩ = 30
    ∧ is_nearest_supported 50 60
    ∧ ¬ is_nearest_supported 50 (snap_resolution 50)
    ∧ ¬ (∀ r : ℤ, ¬(r = 15 ∨ r = 30 ∨ r = 60) →
          is_nearest_supported r (snap_resolution r)) := by
  have h50 : snap_resolution 50 = 30 := rfl
  have hnot : ¬ is_nearest_supported 50 (snap_resolution 50) := by
    rw [h50]
    rintro ⟨-, hmin⟩
    have h60 := hmin 60 (by norm_num)
    norm_num at h60
  refine ⟨h50, rfl, ⟨by norm_num, ?_⟩, hnot, fun hall => hnot (hall 50 (by norm_num))⟩
  rintro w (rfl | rfl | rfl) <;> norm_num

/-- C4 (amended): the effective `num_days` is the caller's value clamped
into `[1, 30]` (so 50 yields 30 and in-range values are unchanged), and any
`resolution_minutes` outside `{15, 30, 60}` is replaced by the fixed
default 30 (so 45 yields 30 — but so does every other invalid value,
regardless of which supported value is nearest), while supported values
are kept. -/
theorem C4_amended_clamping :
    (∀ n : ℤ, 1 ≤ clamp_num_days n ∧ clamp_num_days n ≤ 30)
    ∧ (∀ n : ℤ, 1 ≤ n → n ≤ 30 → clamp_num_days n = n)
    ∧ clamp_num_days 50 = 30
    ∧ (∀ r : ℤ, (r = 15 ∨ r = 30 ∨ r = 60) → snap_resolution r = r)
    ∧ (∀ r : ℤ, ¬(r = 15 ∨ r = 30 ∨ r = 60) → snap_resolution r = 30)
    ∧ snap_resolution 45 = 30 := by
  refine ⟨fun n => ⟨?_, ?_⟩, fun n h1 h30 => ?_, by norm_num [clamp_num_days],
    fun r h => ?_, fun r h => ?_, by norm_num [snap_resolution]⟩
  · simp only [clamp_num_days]; omega
  · simp only [clamp_num_days]; omega
  · simp only [clamp_num_days]; omega
  · simp only [snap_resolution, if_pos h]
  · simp only [snap_resolution, if_neg h]

/-- Witness for C4 (amended): the invalid resolution 59 is replaced by the
default 30 even though 60 would be nearer. -/
theorem C4_amended_clamping_witness : snap_resolution 59 = 30 :=
  C4_amended_clamping.2.2.2.2.1 59 (by norm_num)

/-- C5 counterexample: with horizon length `T = 48` (`num_days = 2`,
`steps_per_hour = 1`), a load profile of length 48 and a price profile of
length 24, the code keeps *both* profiles as-is — the price profile is not
interpolated or tiled even though its length differs from the horizon
(an upsampled price profile would have 48 entries, the kept one has 24). -/
theorem C5_counterexample :
    select_profiles (List.replicate 48 (1 : ℚ)) (List.replicate 24 (2 : ℚ)) 48 1 2
      = (List.replicate 48 (1 : ℚ), List.replicate 24 (2 : ℚ))
    ∧ (List.replicate 24 (2 : ℚ)).length ≠ 48
    ∧ (upsample_profile (List.replicate 24 (2 : ℚ)) 1 2).length = 48 := by
  refine ⟨by simp [select_profiles], by simp, ?_⟩
  rw [length_upsample_profile]
  simp

/-- C5 (amended): the resampling decision is made from the load profile's
length alone — if the load profile already has `T` entries both profiles
are used as-is (the price profile even if its length differs from `T`),
and otherwise both profiles are linearly interpolated to sub-hourly
resolution and tiled over the days. -/
theorem C5_amended_selection (load price : List ℚ) (expected k d : ℕ) :
    (load.length = expected → select_profiles load price expected k d = (load, price))
    ∧ (load.length ≠ expected →
      select_profiles load price expected k d
        = (upsample_profile load k d, upsample_profile price k d)) := by
  constructor <;> intro h <;> simp [select_profiles, h]

/-- Witness for C5 (amended): a 24-sample load profile with horizon 48
sends both profiles through the resampler. -/
theorem C5_amended_selection_witness :
    select_profiles (List.replicate 24 (3 : ℚ)) (List.replicate 24 (4 : ℚ)) 48 1 2
      = (upsample_profile (List.replicate 24 (3 : ℚ)) 1 2,
         upsample_profile (List.replicate 24 (4 : ℚ)) 1 2) :=
  (C5_amended_selection (List.replicate 24 (3 : ℚ)) (List.replicate 24 (4 : ℚ)) 48 1 2).2
    (by simp)

/-- C6: for every hourly profile of length `n ≥ 1`, every
`steps_per_hour = k ≥ 1` and every `num_days = d ≥ 1`, `upsample_profile`
returns exactly `n*k*d` values; its first value equals the profile's first
value; the last value of each tiled day equals the profile's last value;
and every output value lies within any bounds enclosing the input values
(in particular within the extrema of a monotone input — linear
interpolation does not overshoot). -/
theorem C6_upsample_profile_ok (p : List ℚ) (k d : ℕ)
    (hn : 1 ≤ p.length) (hk : 1 ≤ k) (hd : 1 ≤ d) :
    (upsample_profile p k d).length = p.length * k * d
    ∧ (upsample_profile p k d).getD 0 0 = p.getD 0 0
    ∧ (∀ j, j < d →
        (upsample_profile p k d).getD ((j + 1) * (p.length * k) - 1) 0 = p.getLastD 0)
    ∧ (∀ lo hi : ℚ, (∀ x ∈ p, lo ≤ x ∧ x ≤ hi) →
        ∀ v ∈ upsample_profile p k d, lo ≤ v ∧ v ≤ hi) := by
  have hm : 1 ≤ p.length * k := Nat.mul_le_mul hn hk
  refine ⟨length_upsample_profile p k d, ?_, ?_, ?_⟩
  · have h := getD_flatten_replicate d (upsample_single_day p k) 0 0 (by omega)
      (by rw [length_upsample_single_day]; omega)
    simp only [Nat.zero_mul, Nat.zero_add] at h
    unfold upsample_profile
    rw [h, getD_upsample_single_day p k 0 (by omega), fine_time_zero, interpAt_zero]
  · intro j hj
    have h1 : (j + 1) * (p.length * k) = j * (p.length * k) + p.length * k := by ring
    have haux : ∀ q m : ℕ, 1 ≤ m → q + m - 1 = q + (m - 1) := by
      intro q m hm1
      omega
    have hidx : (j + 1) * (p.length * k) - 1 = j * (p.length * k) + (p.length * k - 1) := by
      rw [h1]
      exact haux _ _ hm
    have hfl := getD_flatten_replicate d (upsample_single_day p k) j (p.length * k - 1) hj
      (by rw [length_upsample_single_day]; omega)
    rw [length_upsample_single_day] at hfl
    unfold upsample_profile
    rw [hidx, hfl]
    exact getD_last_upsample_single_day p k hn hk
  · intro lo hi hb v hv
    obtain ⟨x, rfl⟩ := mem_upsample_profile_interpAt p k d v hv
    exact interpAt_bounds p (List.length_pos.mp (by omega)) lo hi hb x

/-- Witness for C6: the two-point profile `[1, 2]` upsampled with `k = 2`,
`d = 1` has length `2*2*1`. -/
theorem C6_upsample_profile_ok_witness :
    (upsample_profile [1, 2] 2 1).length = ([1, 2] : List ℚ).length * 2 * 1 :=
  (C6_upsample_profile_ok [1, 2] 2 1 (by norm_num) (by norm_num) (by norm_num)).1

/-- C7: the 24-point rainy solar shape peaks at 0.3, strictly below the
sunny peak of 1.0; every value of both shapes lies in `[0, 1]`; and any
lowercased weather string other than `"sunny"` or `"rainy"` selects a shape
identical to the sunny one (`solar_profile_base` receives the lowercased
weather of router.py line 98). -/
theorem C7_weather_shapes :
    rainy_solar_profile.foldr max 0 = 3/10
    ∧ sunny_solar_profile.foldr max 0 = 1
    ∧ rainy_solar_profile.foldr max 0 < sunny_solar_profile.foldr max 0
    ∧ (∀ v ∈ sunny_solar_profile, 0 ≤ v ∧ v ≤ 1)
    ∧ (∀ v ∈ rainy_solar_profile, 0 ≤ v ∧ v ≤ 1)
    ∧ (∀ w : String, w ≠ "sunny" → w ≠ "rainy" →
        solar_profile_base w = solar_profile_base "sunny") := by
  refine ⟨by norm_num [rainy_solar_profile], by norm_num [sunny_solar_profile],
    by norm_num [rainy_solar_profile, sunny_solar_profile],
    by norm_num [sunny_solar_profile], by norm_num [rainy_solar_profile],
    fun w h1 h2 => ?_⟩
  simp [solar_profile_base, h1, h2]

/-- Witness for C7: the unrecognized weather string `"cloudy"` selects the
sunny shape. -/
theorem C7_weather_shapes_witness :
    solar_profile_base "cloudy" = solar_profile_base "sunny" :=
  C7_weather_shapes.2.2.2.2.2 "cloudy" (by decide) (by decide)

/-- C9 counterexample: with valid 24-sample profiles, an infeasible model
produces exactly the same observable response — HTTP 200 with body status
`"success"` — as a solved model.  `run_optimization` never inspects the
solver status after `model.solve`, CBC exits 0 on an infeasible model, and
pulp's solution reader zero-fills every variable value, so extraction
completes and no distinct infeasibility status is ever reported. -/
theorem C9_conflated_infeasibility :
    optimize_sources_response (List.replicate 24 (1 : ℚ)) (List.replicate 24 (1 : ℚ))
        .infeasible
      = optimize_sources_response (List.replicate 24 (1 : ℚ)) (List.replicate 24 (1 : ℚ))
        (.solved zeroSol)
    ∧ optimize_sources_response (List.replicate 24 (1 : ℚ)) (List.replicate 24 (1 : ℚ))
        .infeasible
      = ⟨200, "success"⟩ := by
  constructor <;> rfl

/-- C9 (amended): when the built model admits no feasible assignment, no
distinct infeasibility status is reported — the endpoint returns the same
HTTP 200 `"success"` response as for a solved model (its summary filled
from pulp's zero-defaulted variable values), conflating infeasibility with
success; only input-validation failures (HTTP 400, raised before solving)
and solver errors (HTTP 500) are distinguished from it. -/
theorem C9_amended_error_paths (load price : List ℚ) (s : Sol) (m : String)
    (outcome : SolveOutcome) (hl : 24 ≤ load.length) (hp : 24 ≤ price.length)
    (bad : List ℚ) (hbad : bad.length < 24) :
    optimize_sources_response load price .infeasible = ⟨200, "success"⟩
    ∧ optimize_sources_response load price (.solved s) = ⟨200, "success"⟩
    ∧ optimize_sources_response load price (.solverError m) = ⟨500, "error"⟩
    ∧ optimize_sources_response bad price outcome = ⟨400, "error"⟩
    ∧ (⟨200, "success"⟩ : ApiResponse) ≠ (⟨500, "error"⟩ : ApiResponse)
    ∧ (⟨200, "success"⟩ : ApiResponse) ≠ (⟨400, "error"⟩ : ApiResponse) := by
  refine ⟨?_, ?_, ?_, ?_, by decide, by decide⟩
  · simp [optimize_sources_response, Nat.not_lt.mpr hl, Nat.not_lt.mpr hp]
  · simp [optimize_sources_response, Nat.not_lt.mpr hl, Nat.not_lt.mpr hp]
  · simp [optimize_sources_response, Nat.not_lt.mpr hl, Nat.not_lt.mpr hp]
  · simp [optimize_sources_response, hbad]

/-- Witness for C9 (amended) at concrete valid profiles. -/
theorem C9_amended_error_paths_witness :
    optimize_sources_response (List.replicate 24 (1 : ℚ)) (List.replicate 24 (2 : ℚ))
        .infeasible
      = ⟨200, "success"⟩ :=
  (C9_amended_error_paths (List.replicate 24 (1 : ℚ)) (List.replicate 24 (2 : ℚ))
    zeroSol "solver crashed" .infeasible (by simp) (by simp)
    (List.replicate 10 (1 : ℚ)) (by simp)).1

end VidyutAI
